import Mathlib

/-!
Shallow embedding of the calculation engine of the minesim repository
(`src/simulacao-moagem/src/App.tsx` and the economic-analysis component in
`src/unnamed/part_002`).

Numbers are modelled as rationals.  JavaScript's falsiness test `!x` on a
numeric input field corresponds to `x = 0` here.  Error strings produced by
the source are modelled by the inductive `ErrorMsg`, one constructor per
distinct message (the optimizer's interpolated message carries the rational
it would render).
-/

namespace Minesim

/-- Record `StreamData` from App.tsx: `vazao` (flow rate, t/h), `concentracao`
(assay, %), `densidade` (t/m³). -/
structure StreamData where
  vazao : ℚ
  concentracao : ℚ
  densidade : ℚ
  deriving DecidableEq

/-- Record `BalanceResults` from App.tsx. -/
structure BalanceResults where
  alimentacao : StreamData
  concentrado : StreamData
  rejeito : StreamData
  recuperacao : ℚ
  razaoConcentracao : ℚ
  eficienciaSeparacao : ℚ
  deriving DecidableEq

/-- The error strings pushed by the engine, one constructor per message. -/
inductive ErrorMsg where
  | dadosAlimentacaoIncompletos
  | dadosConcentradoIncompletos
  | dadosRejeitoIncompletos
  | dadosInconsistentesNaoFisicos
  | executeSimulacaoPreenchaDados
  | otimizacaoConcluida (novaConcentracao : ℚ)
  deriving DecidableEq

/-- The React state touched by the engine: the three stream records, the
stored balance result, the error list and the bounded simulation history. -/
structure AppState where
  alimentacao : StreamData
  concentrado : StreamData
  rejeito : StreamData
  results : Option BalanceResults
  errors : List ErrorMsg
  simulationHistory : List BalanceResults
  deriving DecidableEq

/-- Model of `[...prev, newResults].slice(-20)`: append and keep the last 20. -/
def pushHistory (h : List BalanceResults) (r : BalanceResults) : List BalanceResults :=
  let l := h ++ [r]
  l.drop (l.length - 20)

/-- The batched validations at the top of `calculateBalance` (App.tsx
lines 253–264): a zero field is falsy, hence "incomplete". -/
def missingInputErrors (s : AppState) : List ErrorMsg :=
  (if s.alimentacao.vazao = 0 ∨ s.alimentacao.concentracao = 0 ∨ s.alimentacao.densidade = 0 then
    [ErrorMsg.dadosAlimentacaoIncompletos] else [])
  ++ (if s.concentrado.concentracao = 0 ∨ s.concentrado.densidade = 0 then
    [ErrorMsg.dadosConcentradoIncompletos] else [])
  ++ (if s.rejeito.concentracao = 0 ∨ s.rejeito.densidade = 0 then
    [ErrorMsg.dadosRejeitoIncompletos] else [])

/-- Expression `const C = (F * (f - t)) / (c - t)` of `calculateBalance`. -/
def solvedC (s : AppState) : ℚ :=
  (s.alimentacao.vazao * (s.alimentacao.concentracao - s.rejeito.concentracao)) /
    (s.concentrado.concentracao - s.rejeito.concentracao)

/-- Expression `const T = F - C` of `calculateBalance`. -/
def solvedT (s : AppState) : ℚ :=
  s.alimentacao.vazao - solvedC s

/-- Expression `const recuperacao = (C * c) / (F * f) * 100` of `calculateBalance`. -/
def solvedRecuperacao (s : AppState) : ℚ :=
  (solvedC s * s.concentrado.concentracao) /
    (s.alimentacao.vazao * s.alimentacao.concentracao) * 100

/-- The `newResults` record built on the success path of `calculateBalance`
(App.tsx lines 287–299). -/
def solvedResults (s : AppState) : BalanceResults :=
  { alimentacao := s.alimentacao
    concentrado := { vazao := solvedC s, concentracao := s.concentrado.concentracao
                     densidade := s.concentrado.densidade }
    rejeito := { vazao := solvedT s, concentracao := s.rejeito.concentracao
                 densidade := s.rejeito.densidade }
    recuperacao := solvedRecuperacao s
    razaoConcentracao := s.concentrado.concentracao / s.alimentacao.concentracao
    eficienciaSeparacao :=
      solvedRecuperacao s * (s.concentrado.concentracao - s.alimentacao.concentracao) /
        (s.concentrado.concentracao * (100 - s.alimentacao.concentracao)) }

/-- Function `calculateBalance` (App.tsx lines 250–306), as a transformer of the
React state it reads and writes: batched input validation, the two-product
solve, the non-physical check `C < 0 || T < 0`, and on success the result
store, error reset and bounded history append. -/
def calculateBalance (s : AppState) : AppState :=
  if missingInputErrors s ≠ [] then { s with errors := missingInputErrors s }
  else if solvedC s < 0 ∨ solvedT s < 0 then
    { s with errors := [ErrorMsg.dadosInconsistentesNaoFisicos] }
  else
    { s with results := some (solvedResults s), errors := [],
             simulationHistory := pushHistory s.simulationHistory (solvedResults s) }

/-- Record `EconomicData` from App.tsx. -/
structure EconomicData where
  capex : ℚ
  opexAnual : ℚ
  receita : ℚ
  vidaUtil : ℚ
  taxaDesconto : ℚ
  custoEnergia : ℚ
  custoMaodeObra : ℚ
  custoManutencao : ℚ
  deriving DecidableEq

/-- Record `EconomicResults` from App.tsx. -/
structure EconomicResults where
  vpl : ℚ
  tir : ℚ
  payback : ℚ
  roi : ℚ
  custoTonelada : ℚ
  deriving DecidableEq

/-- Number of iterations of `for (let ano = 1; ano <= vidaUtil; ano++)`. -/
def anosDeVida (vidaUtil : ℚ) : ℕ :=
  (⌊vidaUtil⌋).toNat

/-- Value `-capex` plus the discounted yearly cash flows at the given rate, the
NPV accumulation loop of `calculateEconomics`. -/
def npvAt (capex fluxo : ℚ) (nAnos : ℕ) (taxa : ℚ) : ℚ :=
  -capex + ((List.range nAnos).map (fun k => fluxo / (1 + taxa / 100) ^ (k + 1))).sum

/-- The rates swept by the TIR loop: `taxa = 1; taxa <= 100; taxa += 0.1`. -/
def taxasTir : List ℚ :=
  (List.range 991).map (fun k : ℕ => 1 + (k : ℚ) / 10)

/-- The TIR approximation loop of `calculateEconomics` (App.tsx lines
327–338): on the first swept rate whose test NPV is `≤ 0` it sets
`tir = taxa - 0.1` and breaks; otherwise `tir` stays `0`. -/
def tirSearch (capex fluxo : ℚ) (nAnos : ℕ) : ℚ :=
  match taxasTir.find? (fun taxa => decide (npvAt capex fluxo nAnos taxa ≤ 0)) with
  | some taxa => taxa - 1 / 10
  | none => 0

/-- Expression `receitaAnual` of `calculateEconomics` (App.tsx line 314). -/
def receitaAnualCalc (r : BalanceResults) (d : EconomicData) : ℚ :=
  r.concentrado.vazao * 8760 * d.receita / 1000

/-- Expression `custoOperacional` of `calculateEconomics` (App.tsx lines 315–317). -/
def custoOperacionalCalc (r : BalanceResults) (d : EconomicData) : ℚ :=
  d.opexAnual + r.alimentacao.vazao * 8760 * d.custoEnergia
    + d.custoMaodeObra + d.custoManutencao

/-- Expression `fluxoCaixaAnual` of `calculateEconomics` (App.tsx line 319). -/
def fluxoCaixaAnualCalc (r : BalanceResults) (d : EconomicData) : ℚ :=
  receitaAnualCalc r d - custoOperacionalCalc r d

/-- Function `calculateEconomics` (App.tsx lines 308–358).  The guard
`!results || !capex || !opexAnual` is modelled by `none`. -/
def calculateEconomics (results : Option BalanceResults) (d : EconomicData) :
    Option EconomicResults :=
  match results with
  | none => none
  | some r =>
    if d.capex = 0 ∨ d.opexAnual = 0 then none
    else
      some { vpl := npvAt d.capex (fluxoCaixaAnualCalc r d) (anosDeVida d.vidaUtil) d.taxaDesconto
             tir := tirSearch d.capex (fluxoCaixaAnualCalc r d) (anosDeVida d.vidaUtil)
             payback := d.capex / fluxoCaixaAnualCalc r d
             roi := (fluxoCaixaAnualCalc r d * d.vidaUtil - d.capex) / d.capex * 100
             custoTonelada := custoOperacionalCalc r d / (r.concentrado.vazao * 8760) }

/-- Record `OptimizationParams` from App.tsx. -/
structure OptimizationParams where
  targetRecovery : ℚ
  maxDensity : ℚ
  minGrade : ℚ
  energyLimit : ℚ
  deriving DecidableEq

/-- The candidate feed assays swept by `optimizeParameters`:
`for (let conc = 10; conc <= 40; conc += 2)`. -/
def optCandidates : List ℚ :=
  [10, 12, 14, 16, 18, 20, 22, 24, 26, 28, 30, 32, 34, 36, 38, 40]

/-- The recovery computed for a candidate feed assay inside the optimizer
loop, with the concentrate assay clamped by `min(·, minGrade)`. -/
def optRecovery (s : AppState) (p : OptimizationParams) (conc : ℚ) : ℚ :=
  let F := s.alimentacao.vazao
  let f := conc
  let c := min s.concentrado.concentracao p.minGrade
  let t := s.rejeito.concentracao
  let C := (F * (f - t)) / (c - t)
  (C * c) / (F * f) * 100

/-- The ordering test `c > f && f > t` of the optimizer loop. -/
def optQualifies (s : AppState) (p : OptimizationParams) (conc : ℚ) : Prop :=
  min s.concentrado.concentracao p.minGrade > conc ∧ conc > s.rejeito.concentracao

instance (s : AppState) (p : OptimizationParams) (conc : ℚ) :
    Decidable (optQualifies s p conc) := by
  unfold optQualifies; infer_instance

/-- One iteration of the optimizer loop: the accumulator carries
`(bestParams.concentracao, bestRecovery)`. -/
def optStep (s : AppState) (p : OptimizationParams) (acc : ℚ × ℚ) (conc : ℚ) : ℚ × ℚ :=
  if optQualifies s p conc then
    let reco := optRecovery s p conc
    if reco > acc.2 ∧ reco ≤ p.targetRecovery + 5 then (conc, reco) else acc
  else acc

/-- Function `optimizeParameters` (App.tsx lines 360–388): sweep the candidates,
write the winning assay back into the feed stream and replace the error
list with the completion message. -/
def optimizeParameters (s : AppState) (p : OptimizationParams) : AppState :=
  let best := optCandidates.foldl (optStep s p) (s.alimentacao.concentracao, 0)
  { s with
      alimentacao := { s.alimentacao with concentracao := best.1 },
      errors := [ErrorMsg.otimizacaoConcluida best.1] }

/-- Loop invariant of the optimizer sweep: after processing a prefix of the
candidate list, the accumulator either still holds the original feed assay
with best recovery `0` (every processed qualifying candidate was rejected by
the `recuperacao > bestRecovery && recuperacao <= targetRecovery + 5` test),
or it holds a processed qualifying candidate realising the best admissible
recovery seen so far. -/
def OptInv (s : AppState) (p : OptimizationParams) (processed : List ℚ) (acc : ℚ × ℚ) : Prop :=
  (acc = (s.alimentacao.concentracao, 0) ∧
    ∀ x ∈ processed, optQualifies s p x →
      optRecovery s p x ≤ 0 ∨ p.targetRecovery + 5 < optRecovery s p x) ∨
  (optQualifies s p acc.1 ∧ acc.1 ∈ processed ∧ optRecovery s p acc.1 = acc.2 ∧
    0 < acc.2 ∧ acc.2 ≤ p.targetRecovery + 5 ∧
    ∀ x ∈ processed, optQualifies s p x → optRecovery s p x ≤ p.targetRecovery + 5 →
      optRecovery s p x ≤ acc.2)

/-- The `results` prop consumed by the economic-analysis component
(`src/unnamed/part_002`). -/
structure AnalysisProps where
  alimentacao : StreamData
  concentrado : StreamData
  rejeito : StreamData
  recuperacao : ℚ
  deriving DecidableEq

/-- Record `EconomicData` of the economic-analysis component. -/
structure AnalysisEconomicData where
  precoConcetrado : ℚ
  custoProcessamento : ℚ
  custoPerdaMineral : ℚ
  horasOperacao : ℚ
  deriving DecidableEq

/-- The record built by `setEconomicResults` in the economic-analysis
component, flattened. -/
structure AnalysisEconomicResults where
  receitaDiaria : ℚ
  receitaMensal : ℚ
  receitaAnual : ℚ
  custoProcessamentoAnual : ℚ
  custoPerdaAnual : ℚ
  custoTotal : ℚ
  lucroDiario : ℚ
  lucroMensal : ℚ
  lucroAnual : ℚ
  margemLucro : ℚ
  receitaPorToneladaConcentrado : ℚ
  custoPorToneladaAlimentacao : ℚ
  eficienciaEconomica : ℚ
  deriving DecidableEq

/-- Function `calculateEconomics` of the economic-analysis component
(`src/unnamed/part_002`, lines 35–71).  The guard
`!results || !precoConcetrado` is modelled by `none`. -/
def analysisCalculateEconomics (results : Option AnalysisProps)
    (d : AnalysisEconomicData) : Option AnalysisEconomicResults :=
  match results with
  | none => none
  | some r =>
    if d.precoConcetrado = 0 then none
    else
      let receitaAnual := r.concentrado.vazao * d.horasOperacao * d.precoConcetrado
      let custoProcessamentoAnual := r.alimentacao.vazao * d.horasOperacao * d.custoProcessamento
      let mineralPerdido := r.rejeito.vazao * r.rejeito.concentracao / 100
      let custoPerdaAnual := mineralPerdido * d.horasOperacao * d.custoPerdaMineral
      let lucroOperacionalAnual := receitaAnual - custoProcessamentoAnual - custoPerdaAnual
      let margemLucro := lucroOperacionalAnual / receitaAnual * 100
      some { receitaDiaria := receitaAnual / 365
             receitaMensal := receitaAnual / 12
             receitaAnual := receitaAnual
             custoProcessamentoAnual := custoProcessamentoAnual
             custoPerdaAnual := custoPerdaAnual
             custoTotal := custoProcessamentoAnual + custoPerdaAnual
             lucroDiario := lucroOperacionalAnual / 365
             lucroMensal := lucroOperacionalAnual / 12
             lucroAnual := lucroOperacionalAnual
             margemLucro := margemLucro
             receitaPorToneladaConcentrado := d.precoConcetrado
             custoPorToneladaAlimentacao := d.custoProcessamento
             eficienciaEconomica :=
               (r.recuperacao * d.precoConcetrado - d.custoProcessamento) / d.precoConcetrado * 100 }

/-- The app state right after `loadExample("iron-ore")` (App.tsx lines
392–396 and 411–412), with an empty history. -/
def ironOreState : AppState :=
  { alimentacao := ⟨100, 355 / 10, 38 / 10⟩
    concentrado := ⟨0, 682 / 10, 48 / 10⟩
    rejeito := ⟨0, 85 / 10, 29 / 10⟩
    results := none
    errors := []
    simulationHistory := [] }

/-- The iron-ore example with the feed flow rate negated: every validated
field is still non-zero and the assay ordering still holds. -/
def negativeFeedState : AppState :=
  { ironOreState with alimentacao := ⟨-100, 355 / 10, 38 / 10⟩ }

/-- A state whose three assays are all `10` (the degenerate
`concentrate assay == tailings assay` scenario of the spec). -/
def degenerateState : AppState :=
  { alimentacao := ⟨100, 10, 38 / 10⟩
    concentrado := ⟨0, 10, 48 / 10⟩
    rejeito := ⟨0, 10, 29 / 10⟩
    results := none
    errors := []
    simulationHistory := [] }

/-- The iron-ore example with the tailings assay set to `0`. -/
def tailingsZeroState : AppState :=
  { ironOreState with rejeito := ⟨0, 0, 29 / 10⟩ }

/-- The iron-ore example with feed and tailings assays swapped, so that the
solved concentrate flow rate is negative. -/
def swappedAssayState : AppState :=
  { ironOreState with
      alimentacao := ⟨100, 85 / 10, 38 / 10⟩
      rejeito := ⟨0, 355 / 10, 29 / 10⟩ }

/-- The app's initial `optimizationParams` (App.tsx lines 118–123). -/
def defaultOptimizationParams : OptimizationParams :=
  { targetRecovery := 85, maxDensity := 5, minGrade := 60, energyLimit := 15 }

/-- A concrete balance result used to exercise the DCF evaluator. -/
def dcfExampleBalance : BalanceResults :=
  { alimentacao := ⟨1, 1, 1⟩, concentrado := ⟨1, 1, 1⟩, rejeito := ⟨1, 1, 1⟩
    recuperacao := 0, razaoConcentracao := 0, eficienciaSeparacao := 0 }

/-- Economic inputs with zero price and a unit operating cost, so the
annual cash flow is `-1` and every swept NPV is negative. -/
def dcfExampleData : EconomicData :=
  { capex := 1000, opexAnual := 1, receita := 0, vidaUtil := 1, taxaDesconto := 0
    custoEnergia := 0, custoMaodeObra := 0, custoManutencao := 0 }

/-- The value `calculateEconomics` produces on the example above. -/
def dcfExampleResults : EconomicResults :=
  { vpl := -1001, tir := 9 / 10, payback := -1000, roi := -1001 / 10
    custoTonelada := 1 / 8760 }

/-- A balance result handed to the economic-analysis component. -/
def zeroRevenueProps : AnalysisProps :=
  { alimentacao := ⟨100, 355 / 10, 38 / 10⟩, concentrado := ⟨45, 682 / 10, 48 / 10⟩
    rejeito := ⟨55, 85 / 10, 29 / 10⟩, recuperacao := 85 }

/-- Economic-analysis inputs with a non-zero concentrate price but zero
operating hours, which makes the annual revenue zero. -/
def zeroRevenueData : AnalysisEconomicData :=
  { precoConcetrado := 1500, custoProcessamento := 25, custoPerdaMineral := 800
    horasOperacao := 0 }

/-- A concrete balance result used to exercise the history buffer. -/
def exampleHistoryEntry : BalanceResults :=
  { alimentacao := ⟨1, 1, 1⟩, concentrado := ⟨2, 2, 2⟩, rejeito := ⟨3, 3, 3⟩
    recuperacao := 4, razaoConcentracao := 5, eficienciaSeparacao := 6 }

/-! ## Lemmas about the branches of `calculateBalance` -/

lemma missingInputErrors_eq_nil (s : AppState)
    (h1 : s.alimentacao.vazao ≠ 0) (h2 : s.alimentacao.concentracao ≠ 0)
    (h3 : s.alimentacao.densidade ≠ 0) (h4 : s.concentrado.concentracao ≠ 0)
    (h5 : s.concentrado.densidade ≠ 0) (h6 : s.rejeito.concentracao ≠ 0)
    (h7 : s.rejeito.densidade ≠ 0) :
    missingInputErrors s = [] := by
  unfold missingInputErrors
  rw [if_neg (by push_neg; exact ⟨h1, h2, h3⟩), if_neg (by push_neg; exact ⟨h4, h5⟩),
    if_neg (by push_neg; exact ⟨h6, h7⟩)]
  rfl

lemma calculateBalance_missing (s : AppState) (hmiss : missingInputErrors s ≠ []) :
    calculateBalance s = { s with errors := missingInputErrors s } := by
  unfold calculateBalance
  rw [if_pos hmiss]

lemma calculateBalance_nonphysical (s : AppState) (hmiss : missingInputErrors s = [])
    (hbad : solvedC s < 0 ∨ solvedT s < 0) :
    calculateBalance s = { s with errors := [ErrorMsg.dadosInconsistentesNaoFisicos] } := by
  unfold calculateBalance
  rw [if_neg (by simp [hmiss]), if_pos hbad]

lemma calculateBalance_success (s : AppState) (hmiss : missingInputErrors s = [])
    (hC : 0 ≤ solvedC s) (hT : 0 ≤ solvedT s) :
    calculateBalance s =
      { s with results := some (solvedResults s), errors := [],
               simulationHistory := pushHistory s.simulationHistory (solvedResults s) } := by
  unfold calculateBalance
  rw [if_neg (by simp [hmiss]), if_neg (by push_neg; exact ⟨hC, hT⟩)]

lemma solvedC_nonneg (s : AppState) (hF : 0 < s.alimentacao.vazao)
    (h1 : s.rejeito.concentracao < s.alimentacao.concentracao)
    (h2 : s.alimentacao.concentracao < s.concentrado.concentracao) :
    0 ≤ solvedC s := by
  unfold solvedC
  apply div_nonneg
  · exact mul_nonneg hF.le (by linarith)
  · linarith

lemma solvedT_nonneg (s : AppState) (hF : 0 < s.alimentacao.vazao)
    (h1 : s.rejeito.concentracao < s.alimentacao.concentracao)
    (h2 : s.alimentacao.concentracao < s.concentrado.concentracao) :
    0 ≤ solvedT s := by
  unfold solvedT solvedC
  rw [sub_nonneg, div_le_iff₀ (by linarith)]
  nlinarith [mul_nonneg hF.le (sub_nonneg.2 h2.le)]

/-! ## Claims about the mass-balance solver -/

/-- C1 (as frozen, refuted): with every validated field non-zero and the
assay ordering satisfied, a negative feed flow rate still makes the solve
fail (the `C < 0 || T < 0` branch), so no result is produced at all. -/
theorem c1_counterexample :
    negativeFeedState.alimentacao.vazao ≠ 0 ∧
    negativeFeedState.alimentacao.concentracao ≠ 0 ∧
    negativeFeedState.alimentacao.densidade ≠ 0 ∧
    negativeFeedState.concentrado.concentracao ≠ 0 ∧
    negativeFeedState.concentrado.densidade ≠ 0 ∧
    negativeFeedState.rejeito.concentracao ≠ 0 ∧
    negativeFeedState.rejeito.densidade ≠ 0 ∧
    negativeFeedState.rejeito.concentracao < negativeFeedState.alimentacao.concentracao ∧
    negativeFeedState.alimentacao.concentracao < negativeFeedState.concentrado.concentracao ∧
    (calculateBalance negativeFeedState).results = none := by
  have hmiss : missingInputErrors negativeFeedState = [] := by
    norm_num [missingInputErrors, negativeFeedState, ironOreState]
  have hbad : solvedC negativeFeedState < 0 ∨ solvedT negativeFeedState < 0 :=
    Or.inl (by norm_num [solvedC, negativeFeedState, ironOreState])
  refine ⟨?_, ?_, ?_, ?_, ?_, ?_, ?_, ?_, ?_, ?_⟩ <;>
    first
      | (rw [calculateBalance_nonphysical negativeFeedState hmiss hbad]
         simp [negativeFeedState, ironOreState])
      | norm_num [negativeFeedState, ironOreState]

/-- C1 (amended): with a positive feed flow rate, the remaining validated
fields non-zero and `concentrate.assay > feed.assay > tailings.assay`, the
solve succeeds and the solved concentrate flow rate plus the solved
tailings flow rate equals the feed flow rate exactly. -/
theorem c1_mass_conservation (s : AppState)
    (hF : 0 < s.alimentacao.vazao)
    (hf : s.alimentacao.concentracao ≠ 0) (hfd : s.alimentacao.densidade ≠ 0)
    (hc : s.concentrado.concentracao ≠ 0) (hcd : s.concentrado.densidade ≠ 0)
    (ht : s.rejeito.concentracao ≠ 0) (htd : s.rejeito.densidade ≠ 0)
    (h1 : s.rejeito.concentracao < s.alimentacao.concentracao)
    (h2 : s.alimentacao.concentracao < s.concentrado.concentracao) :
    ∃ r, (calculateBalance s).results = some r ∧
      r.concentrado.vazao + r.rejeito.vazao = s.alimentacao.vazao := by
  have hmiss := missingInputErrors_eq_nil s (ne_of_gt hF) hf hfd hc hcd ht htd
  rw [calculateBalance_success s hmiss (solvedC_nonneg s hF h1 h2) (solvedT_nonneg s hF h1 h2)]
  refine ⟨solvedResults s, rfl, ?_⟩
  show solvedC s + solvedT s = s.alimentacao.vazao
  unfold solvedT
  ring

/-- Witness for C1 at the iron-ore example input. -/
theorem c1_witness :
    ∃ r, (calculateBalance ironOreState).results = some r ∧
      r.concentrado.vazao + r.rejeito.vazao = ironOreState.alimentacao.vazao :=
  c1_mass_conservation ironOreState (by norm_num [ironOreState]) (by norm_num [ironOreState])
    (by norm_num [ironOreState]) (by norm_num [ironOreState]) (by norm_num [ironOreState])
    (by norm_num [ironOreState]) (by norm_num [ironOreState]) (by norm_num [ironOreState])
    (by norm_num [ironOreState])

/-- C2 (the code lacks the required guard): on the degenerate input with
all three assays equal to 10 (so `c - t == 0`), `calculateBalance` raises
no error at all and stores a result: there is no `DegenerateInput` branch
in the source, and in JavaScript the stored flow rates and recovery are
`NaN` (here, under the rational convention `x / 0 = 0`, they are `0`). -/
theorem c2_no_degenerate_guard :
    degenerateState.concentrado.concentracao = degenerateState.rejeito.concentracao ∧
    (calculateBalance degenerateState).errors = [] ∧
    (calculateBalance degenerateState).results = some (solvedResults degenerateState) := by
  have hC : solvedC degenerateState = 0 := by
    norm_num [solvedC, degenerateState]
  have hT : 0 ≤ solvedT degenerateState := by
    unfold solvedT
    rw [hC]
    norm_num [degenerateState]
  rw [calculateBalance_success degenerateState
    (by norm_num [missingInputErrors, degenerateState]) (le_of_eq hC.symm) hT]
  exact ⟨rfl, rfl, rfl⟩

/-- C3: post-validation, a negative solved flow rate makes the solve fail
with exactly the non-physical-result error; and every failed solve (missing
input or non-physical result) leaves the stored balance result and the
simulation history unchanged, replacing only the error list. -/
theorem c3_nonphysical_failure_frame (s : AppState) :
    (missingInputErrors s = [] → solvedC s < 0 ∨ solvedT s < 0 →
      (calculateBalance s).errors = [ErrorMsg.dadosInconsistentesNaoFisicos]) ∧
    ((calculateBalance s).errors ≠ [] →
      (calculateBalance s).results = s.results ∧
      (calculateBalance s).simulationHistory = s.simulationHistory) := by
  constructor
  · intro hmiss hbad
    rw [calculateBalance_nonphysical s hmiss hbad]
  · intro hfail
    by_cases hmiss : missingInputErrors s = []
    · by_cases hbad : solvedC s < 0 ∨ solvedT s < 0
      · rw [calculateBalance_nonphysical s hmiss hbad]
        exact ⟨rfl, rfl⟩
      · push_neg at hbad
        rw [calculateBalance_success s hmiss hbad.1 hbad.2] at hfail
        exact absurd rfl hfail
    · rw [calculateBalance_missing s hmiss]
      exact ⟨rfl, rfl⟩

/-- Witness for C3 at a complete input whose feed and tailings assays are
swapped, making the solved concentrate flow rate negative. -/
theorem c3_witness :
    (calculateBalance swappedAssayState).errors = [ErrorMsg.dadosInconsistentesNaoFisicos] ∧
    (calculateBalance swappedAssayState).results = swappedAssayState.results ∧
    (calculateBalance swappedAssayState).simulationHistory =
      swappedAssayState.simulationHistory := by
  have hmiss : missingInputErrors swappedAssayState = [] := by
    norm_num [missingInputErrors, swappedAssayState, ironOreState]
  have hbad : solvedC swappedAssayState < 0 ∨ solvedT swappedAssayState < 0 :=
    Or.inl (by norm_num [solvedC, swappedAssayState, ironOreState])
  refine ⟨(c3_nonphysical_failure_frame swappedAssayState).1 hmiss hbad,
    (c3_nonphysical_failure_frame swappedAssayState).2 ?_⟩
  rw [calculateBalance_nonphysical swappedAssayState hmiss hbad]
  simp

/-- C4 (as frozen, refuted): the claim admits `tailings.assay == 0`, but the
solver treats a zero assay as a missing input, fails, and computes no
recovery at all. -/
theorem c4_counterexample :
    0 < tailingsZeroState.alimentacao.vazao ∧
    tailingsZeroState.rejeito.concentracao = 0 ∧
    tailingsZeroState.rejeito.concentracao < tailingsZeroState.alimentacao.concentracao ∧
    tailingsZeroState.alimentacao.concentracao < tailingsZeroState.concentrado.concentracao ∧
    tailingsZeroState.concentrado.concentracao ≤ 100 ∧
    (calculateBalance tailingsZeroState).results = none ∧
    (calculateBalance tailingsZeroState).errors ≠ [] := by
  have hmiss : missingInputErrors tailingsZeroState = [ErrorMsg.dadosRejeitoIncompletos] := by
    norm_num [missingInputErrors, tailingsZeroState, ironOreState]
  have heval := calculateBalance_missing tailingsZeroState (by rw [hmiss]; simp)
  refine ⟨by norm_num [tailingsZeroState, ironOreState], rfl,
    by norm_num [tailingsZeroState, ironOreState], by norm_num [tailingsZeroState, ironOreState],
    by norm_num [tailingsZeroState, ironOreState], ?_, ?_⟩
  · rw [heval]
    simp [tailingsZeroState, ironOreState]
  · rw [heval, hmiss]
    simp

/-- C4 (amended): for physically valid inputs with a *strictly positive*
tailings assay (zero is rejected as missing input), positive feed flow,
non-zero densities, `concentrate.assay > feed.assay > tailings.assay` and
concentrate assay at most 100, the solve succeeds and the computed recovery
lies in `[0, 100]`. -/
theorem c4_recovery_in_range (s : AppState)
    (hF : 0 < s.alimentacao.vazao)
    (hfd : s.alimentacao.densidade ≠ 0) (hcd : s.concentrado.densidade ≠ 0)
    (htd : s.rejeito.densidade ≠ 0)
    (ht : 0 < s.rejeito.concentracao)
    (h1 : s.rejeito.concentracao < s.alimentacao.concentracao)
    (h2 : s.alimentacao.concentracao < s.concentrado.concentracao)
    (_hc100 : s.concentrado.concentracao ≤ 100) :
    ∃ r, (calculateBalance s).results = some r ∧
      0 ≤ r.recuperacao ∧ r.recuperacao ≤ 100 := by
  have hfpos : 0 < s.alimentacao.concentracao := lt_trans ht h1
  have hcpos : 0 < s.concentrado.concentracao := lt_trans hfpos h2
  have hmiss := missingInputErrors_eq_nil s (ne_of_gt hF) (ne_of_gt hfpos) hfd
    (ne_of_gt hcpos) hcd (ne_of_gt ht) htd
  have hCn := solvedC_nonneg s hF h1 h2
  rw [calculateBalance_success s hmiss hCn (solvedT_nonneg s hF h1 h2)]
  refine ⟨solvedResults s, rfl, ?_, ?_⟩
  · show 0 ≤ solvedRecuperacao s
    unfold solvedRecuperacao
    have : 0 ≤ solvedC s * s.concentrado.concentracao := mul_nonneg hCn hcpos.le
    positivity
  · show solvedRecuperacao s ≤ 100
    unfold solvedRecuperacao
    have hFf : 0 < s.alimentacao.vazao * s.alimentacao.concentracao := mul_pos hF hfpos
    have key : solvedC s * s.concentrado.concentracao ≤
        s.alimentacao.vazao * s.alimentacao.concentracao := by
      unfold solvedC
      rw [div_mul_eq_mul_div, div_le_iff₀ (show 0 < s.concentrado.concentracao -
        s.rejeito.concentracao by linarith)]
      nlinarith [mul_nonneg (mul_nonneg hF.le ht.le) (sub_nonneg.2 h2.le)]
    have hdiv := (div_le_one hFf).2 key
    linarith

/-- Witness for C4 at the iron-ore example input. -/
theorem c4_witness :
    ∃ r, (calculateBalance ironOreState).results = some r ∧
      0 ≤ r.recuperacao ∧ r.recuperacao ≤ 100 :=
  c4_recovery_in_range ironOreState (by norm_num [ironOreState]) (by norm_num [ironOreState])
    (by norm_num [ironOreState]) (by norm_num [ironOreState]) (by norm_num [ironOreState])
    (by norm_num [ironOreState]) (by norm_num [ironOreState]) (by norm_num [ironOreState])

/-- C9 (as frozen, refuted): on the iron-ore example the solve actually
yields `C = 9000/199 ≈ 45.226` and `recovery = 1227600/14129 ≈ 86.885`,
which miss the claimed `45.15` by more than `0.05` and the claimed `86.65`
by more than `0.1`. -/
theorem c9_counterexample :
    ∃ r, (calculateBalance ironOreState).results = some r ∧
      r.concentrado.vazao = 9000 / 199 ∧
      r.recuperacao = 1227600 / 14129 ∧
      ¬ |r.concentrado.vazao - 4515 / 100| ≤ 1 / 20 ∧
      ¬ |r.recuperacao - 8665 / 100| ≤ 1 / 10 := by
  have hC : solvedC ironOreState = 9000 / 199 := by
    norm_num [solvedC, ironOreState]
  have hT0 : 0 ≤ solvedT ironOreState := by
    unfold solvedT
    rw [hC]
    norm_num [ironOreState]
  have hrec : solvedRecuperacao ironOreState = 1227600 / 14129 := by
    unfold solvedRecuperacao
    rw [hC]
    norm_num [ironOreState]
  rw [calculateBalance_success ironOreState (by norm_num [missingInputErrors, ironOreState])
    (by rw [hC]; norm_num) hT0]
  refine ⟨solvedResults ironOreState, rfl, hC, hrec, ?_, ?_⟩
  · show ¬ |solvedC ironOreState - 4515 / 100| ≤ 1 / 20
    rw [hC, abs_of_pos (by norm_num)]
    norm_num
  · show ¬ |solvedRecuperacao ironOreState - 8665 / 100| ≤ 1 / 10
    rw [hrec, abs_of_pos (by norm_num)]
    norm_num

/-- C9 (amended): on the iron-ore example the solve yields
`C ≈ 45.23 t/h`, `T ≈ 54.77 t/h`, `recovery ≈ 86.89 %` and
`concentrationRatio ≈ 1.92`, each within `0.01`, with `C + T = 100`. -/
theorem c9_iron_ore_example :
    ∃ r, (calculateBalance ironOreState).results = some r ∧
      |r.concentrado.vazao - 4523 / 100| < 1 / 100 ∧
      |r.rejeito.vazao - 5477 / 100| < 1 / 100 ∧
      |r.recuperacao - 8689 / 100| < 1 / 100 ∧
      |r.razaoConcentracao - 192 / 100| < 1 / 100 ∧
      r.concentrado.vazao + r.rejeito.vazao = 100 := by
  have hC : solvedC ironOreState = 9000 / 199 := by
    norm_num [solvedC, ironOreState]
  have hT : solvedT ironOreState = 10900 / 199 := by
    unfold solvedT
    rw [hC]
    norm_num [ironOreState]
  have hrec : solvedRecuperacao ironOreState = 1227600 / 14129 := by
    unfold solvedRecuperacao
    rw [hC]
    norm_num [ironOreState]
  rw [calculateBalance_success ironOreState (by norm_num [missingInputErrors, ironOreState])
    (by rw [hC]; norm_num) (by rw [hT]; norm_num)]
  refine ⟨solvedResults ironOreState, rfl, ?_, ?_, ?_, ?_, ?_⟩
  · show |solvedC ironOreState - 4523 / 100| < 1 / 100
    rw [hC, abs_lt]
    constructor <;> norm_num
  · show |solvedT ironOreState - 5477 / 100| < 1 / 100
    rw [hT, abs_lt]
    constructor <;> norm_num
  · show |solvedRecuperacao ironOreState - 8689 / 100| < 1 / 100
    rw [hrec, abs_lt]
    constructor <;> norm_num
  · show |ironOreState.concentrado.concentracao / ironOreState.alimentacao.concentracao -
      192 / 100| < 1 / 100
    rw [abs_lt]
    constructor <;> norm_num [ironOreState]
  · show solvedC ironOreState + solvedT ironOreState = 100
    rw [hC, hT]
    norm_num

/-! ## The bounded simulation history -/

lemma pushHistory_length_le (h : List BalanceResults) (r : BalanceResults) :
    (pushHistory h r).length ≤ 20 := by
  simp only [pushHistory, List.length_drop, List.length_append, List.length_cons,
    List.length_nil]
  omega

lemma drop_last20_append (l rs : List BalanceResults) :
    ((l.drop (l.length - 20)) ++ rs).drop (((l.drop (l.length - 20)) ++ rs).length - 20) =
      (l ++ rs).drop ((l ++ rs).length - 20) := by
  rw [← List.drop_append_of_le_length (Nat.sub_le l.length 20), List.drop_drop,
    List.length_drop, List.length_append]
  congr 1
  omega

lemma foldl_pushHistory (rs : List BalanceResults) :
    ∀ h₀ : List BalanceResults, h₀.length ≤ 20 →
      rs.foldl pushHistory h₀ = (h₀ ++ rs).drop ((h₀ ++ rs).length - 20) := by
  induction rs with
  | nil =>
    intro h₀ hlen
    simp only [List.foldl_nil, List.append_nil]
    rw [Nat.sub_eq_zero_of_le hlen, List.drop_zero]
  | cons r rs ih =>
    intro h₀ hlen
    rw [List.foldl_cons, ih _ (pushHistory_length_le h₀ r),
      show pushHistory h₀ r = (h₀ ++ [r]).drop ((h₀ ++ [r]).length - 20) from rfl,
      drop_last20_append]
    simp only [List.append_assoc, List.singleton_append]

/-- The state of `calculateBalance ironOreState` (a successful solve). -/
lemma ironOre_success :
    calculateBalance ironOreState =
      { ironOreState with
          results := some (solvedResults ironOreState), errors := [],
          simulationHistory := pushHistory ironOreState.simulationHistory
            (solvedResults ironOreState) } := by
  have hC : solvedC ironOreState = 9000 / 199 := by
    norm_num [solvedC, ironOreState]
  apply calculateBalance_success
  · norm_num [missingInputErrors, ironOreState]
  · rw [hC]
    norm_num
  · unfold solvedT
    rw [hC]
    norm_num [ironOreState]

/-- C5: the simulation history is appended to only on successful solves
(failures leave it untouched), a push never leaves more than 20 entries,
and 21 consecutive pushes onto a history of at most 20 entries leave
exactly the last 20 pushed results: the first result is evicted, the
21st present. -/
theorem c5_history_bounded_fifo (s : AppState) (h₀ rs : List BalanceResults)
    (r' : BalanceResults) :
    ((calculateBalance s).errors ≠ [] →
      (calculateBalance s).simulationHistory = s.simulationHistory) ∧
    ((calculateBalance s).errors = [] →
      ∃ r, (calculateBalance s).results = some r ∧
        (calculateBalance s).simulationHistory = pushHistory s.simulationHistory r) ∧
    (pushHistory h₀ r').length ≤ 20 ∧
    (h₀.length ≤ 20 → rs.length = 21 →
      rs.foldl pushHistory h₀ = rs.drop 1) := by
  refine ⟨?_, ?_, pushHistory_length_le h₀ r', ?_⟩
  · intro hfail
    by_cases hmiss : missingInputErrors s = []
    · by_cases hbad : solvedC s < 0 ∨ solvedT s < 0
      · rw [calculateBalance_nonphysical s hmiss hbad]
      · push_neg at hbad
        rw [calculateBalance_success s hmiss hbad.1 hbad.2] at hfail
        exact absurd rfl hfail
    · rw [calculateBalance_missing s hmiss]
  · intro hsucc
    by_cases hmiss : missingInputErrors s = []
    · by_cases hbad : solvedC s < 0 ∨ solvedT s < 0
      · rw [calculateBalance_nonphysical s hmiss hbad] at hsucc
        exact absurd hsucc (by simp)
      · push_neg at hbad
        rw [calculateBalance_success s hmiss hbad.1 hbad.2]
        exact ⟨solvedResults s, rfl, rfl⟩
    · rw [calculateBalance_missing s hmiss] at hsucc
      exact absurd hsucc hmiss
  · intro hlen hrs
    rw [foldl_pushHistory rs h₀ hlen, List.length_append, hrs,
      show h₀.length + 21 - 20 = h₀.length + 1 from by omega, List.drop_append]

/-- Witness for C5: a successful solve appends its result, and 21 pushes
onto an empty history leave exactly the last 20. -/
theorem c5_witness :
    (∃ r, (calculateBalance ironOreState).results = some r ∧
      (calculateBalance ironOreState).simulationHistory =
        pushHistory ironOreState.simulationHistory r) ∧
    (List.replicate 21 exampleHistoryEntry).foldl pushHistory [] =
      (List.replicate 21 exampleHistoryEntry).drop 1 := by
  have h := c5_history_bounded_fifo ironOreState [] (List.replicate 21 exampleHistoryEntry)
    exampleHistoryEntry
  exact ⟨h.2.1 (by rw [ironOre_success]), h.2.2.2 (by simp) (by simp)⟩

/-! ## The grid-search optimizer -/

lemma optCandidates_ge10 : ∀ x ∈ optCandidates, (10 : ℚ) ≤ x := by
  intro x hx
  fin_cases hx <;> norm_num

lemma optRecovery_pos (s : AppState) (p : OptimizationParams) (x : ℚ)
    (hF : s.alimentacao.vazao ≠ 0) (hx10 : 10 ≤ x) (hq : optQualifies s p x) :
    0 < optRecovery s p x := by
  obtain ⟨hcx, hxt⟩ := hq
  have hx0 : (0 : ℚ) < x := lt_of_lt_of_le (by norm_num) hx10
  have hct : 0 < min s.concentrado.concentracao p.minGrade - s.rejeito.concentracao := by
    have := lt_trans hxt hcx
    linarith
  have hxt' : 0 < x - s.rejeito.concentracao := sub_pos.2 hxt
  have hc0 : 0 < min s.concentrado.concentracao p.minGrade := lt_trans hx0 hcx
  have hctne : min s.concentrado.concentracao p.minGrade - s.rejeito.concentracao ≠ 0 :=
    ne_of_gt hct
  have hxne : x ≠ 0 := ne_of_gt hx0
  have heq : optRecovery s p x =
      (x - s.rejeito.concentracao) * min s.concentrado.concentracao p.minGrade * 100 /
        ((min s.concentrado.concentracao p.minGrade - s.rejeito.concentracao) * x) := by
    simp only [optRecovery]
    field_simp
    ring
  rw [heq]
  exact div_pos (mul_pos (mul_pos hxt' hc0) (by norm_num)) (mul_pos hct hx0)

lemma optStep_inv (s : AppState) (p : OptimizationParams) (proc : List ℚ) (acc : ℚ × ℚ)
    (y : ℚ) (h : OptInv s p proc acc) : OptInv s p (proc ++ [y]) (optStep s p acc y) := by
  simp only [optStep]
  by_cases hq : optQualifies s p y
  · rw [if_pos hq]
    by_cases hcond : optRecovery s p y > acc.2 ∧
        optRecovery s p y ≤ p.targetRecovery + 5
    · rw [if_pos hcond]
      have hypos : 0 < optRecovery s p y := by
        rcases h with ⟨hacc, -⟩ | ⟨-, -, -, hpos, -, -⟩
        · have hz : acc.2 = 0 := by rw [hacc]
          exact hz ▸ hcond.1
        · exact lt_trans hpos hcond.1
      right
      refine ⟨hq, List.mem_append_right _ (by simp), rfl, hypos, hcond.2, ?_⟩
      intro x hx hqx hxle
      rcases List.mem_append.1 hx with hx | hx
      · rcases h with ⟨-, hall⟩ | ⟨-, -, -, -, -, hmax⟩
        · rcases hall x hx hqx with h0 | hgt
          · exact le_of_lt (lt_of_le_of_lt h0 hypos)
          · exact absurd hxle (not_le.2 hgt)
        · exact le_trans (hmax x hx hqx hxle) (le_of_lt hcond.1)
      · have hxy : x = y := by simpa using hx
        subst hxy
        exact le_rfl
    · rw [if_neg hcond]
      have hrej : optRecovery s p y ≤ acc.2 ∨ p.targetRecovery + 5 < optRecovery s p y := by
        by_contra hcon
        push_neg at hcon
        exact hcond ⟨hcon.1, hcon.2⟩
      rcases h with ⟨hacc, hall⟩ | ⟨hq1, hmem, heq, hpos, hle, hmax⟩
      · left
        refine ⟨hacc, ?_⟩
        intro x hx hqx
        rcases List.mem_append.1 hx with hx | hx
        · exact hall x hx hqx
        · have hxy : x = y := by simpa using hx
          subst hxy
          rcases hrej with hr | hr
          · left
            have hz : acc.2 = 0 := by rw [hacc]
            exact hz ▸ hr
          · exact Or.inr hr
      · right
        refine ⟨hq1, List.mem_append_left _ hmem, heq, hpos, hle, ?_⟩
        intro x hx hqx hxle
        rcases List.mem_append.1 hx with hx | hx
        · exact hmax x hx hqx hxle
        · have hxy : x = y := by simpa using hx
          subst hxy
          rcases hrej with hr | hr
          · exact hr
          · exact absurd hxle (not_le.2 hr)
  · rw [if_neg hq]
    rcases h with ⟨hacc, hall⟩ | ⟨hq1, hmem, heq, hpos, hle, hmax⟩
    · left
      refine ⟨hacc, ?_⟩
      intro x hx hqx
      rcases List.mem_append.1 hx with hx | hx
      · exact hall x hx hqx
      · have hxy : x = y := by simpa using hx
        subst hxy
        exact absurd hqx hq
    · right
      refine ⟨hq1, List.mem_append_left _ hmem, heq, hpos, hle, ?_⟩
      intro x hx hqx hxle
      rcases List.mem_append.1 hx with hx | hx
      · exact hmax x hx hqx hxle
      · have hxy : x = y := by simpa using hx
        subst hxy
        exact absurd hqx hq

lemma optFoldl_inv (s : AppState) (p : OptimizationParams) (l : List ℚ) :
    ∀ (proc : List ℚ) (acc : ℚ × ℚ), OptInv s p proc acc →
      OptInv s p (proc ++ l) (l.foldl (optStep s p) acc) := by
  induction l with
  | nil =>
    intro proc acc h
    simpa using h
  | cons y l ih =>
    intro proc acc h
    rw [List.foldl_cons]
    have h' := ih (proc ++ [y]) (optStep s p acc y) (optStep_inv s p proc acc y h)
    simpa [List.append_assoc] using h'

lemma optInv_full (s : AppState) (p : OptimizationParams) :
    OptInv s p optCandidates
      (optCandidates.foldl (optStep s p) (s.alimentacao.concentracao, 0)) := by
  have h := optFoldl_inv s p optCandidates [] (s.alimentacao.concentracao, 0)
    (Or.inl ⟨rfl, fun x hx => absurd hx (List.not_mem_nil x)⟩)
  simpa using h

/-- C6: the optimizer sweeps the candidate feed assays `10, 12, …, 40` with
the effective concentrate assay clamped to `min(concentrateAssay, minGrade)`.
If no candidate satisfies the ordering `effConc > candidate > tailings`, the
feed assay is returned unchanged; if some ordering-satisfying candidate has
recovery at most `targetRecovery + 5` (and the feed flow is non-zero), the
returned feed assay is such a candidate whose recovery is maximal among
them. -/
theorem c6_grid_search (s : AppState) (p : OptimizationParams) :
    ((∀ x ∈ optCandidates, ¬ optQualifies s p x) →
      (optimizeParameters s p).alimentacao.concentracao = s.alimentacao.concentracao) ∧
    (s.alimentacao.vazao ≠ 0 →
      (∃ x ∈ optCandidates, optQualifies s p x ∧
        optRecovery s p x ≤ p.targetRecovery + 5) →
      ∃ y ∈ optCandidates, optQualifies s p y ∧
        optRecovery s p y ≤ p.targetRecovery + 5 ∧
        (optimizeParameters s p).alimentacao.concentracao = y ∧
        ∀ x ∈ optCandidates, optQualifies s p x →
          optRecovery s p x ≤ p.targetRecovery + 5 →
          optRecovery s p x ≤ optRecovery s p y) := by
  have hinv := optInv_full s p
  constructor
  · intro hnone
    rcases hinv with ⟨hacc, -⟩ | ⟨hqbest, hmem, -⟩
    · show (optCandidates.foldl (optStep s p) (s.alimentacao.concentracao, 0)).1 =
        s.alimentacao.concentracao
      rw [hacc]
    · exact absurd hqbest (hnone _ hmem)
  · rintro hF ⟨x, hx, hqx, hlex⟩
    rcases hinv with ⟨-, hall⟩ | ⟨hqbest, hmem, heq, -, hle, hmax⟩
    · exfalso
      have hpos := optRecovery_pos s p x hF (optCandidates_ge10 x hx) hqx
      rcases hall x hx hqx with h0 | hgt
      · linarith
      · linarith
    · refine ⟨_, hmem, hqbest, ?_, rfl, ?_⟩
      · rw [heq]
        exact hle
      · intro z hz hqz hzle
        rw [heq]
        exact hmax z hz hqz hzle

/-- Witness for C6 at the iron-ore example with the app's default
optimization parameters. -/
theorem c6_witness :
    ∃ y ∈ optCandidates, optQualifies ironOreState defaultOptimizationParams y ∧
      optRecovery ironOreState defaultOptimizationParams y ≤
        defaultOptimizationParams.targetRecovery + 5 ∧
      (optimizeParameters ironOreState defaultOptimizationParams).alimentacao.concentracao = y ∧
      ∀ x ∈ optCandidates, optQualifies ironOreState defaultOptimizationParams x →
        optRecovery ironOreState defaultOptimizationParams x ≤
          defaultOptimizationParams.targetRecovery + 5 →
        optRecovery ironOreState defaultOptimizationParams x ≤
          optRecovery ironOreState defaultOptimizationParams y :=
  (c6_grid_search ironOreState defaultOptimizationParams).2
    (by norm_num [ironOreState])
    ⟨10, by norm_num [optCandidates],
      by constructor <;> norm_num [ironOreState, defaultOptimizationParams, min_def],
      by norm_num [optRecovery, ironOreState, defaultOptimizationParams, min_def]⟩

/-- C10: the optimizer modifies at most the feed stream's assay: feed flow
rate and density, the concentrate and tailings records, the stored result
and the history all retain their prior values. -/
theorem c10_optimizer_frame (s : AppState) (p : OptimizationParams) :
    (optimizeParameters s p).alimentacao.vazao = s.alimentacao.vazao ∧
    (optimizeParameters s p).alimentacao.densidade = s.alimentacao.densidade ∧
    (optimizeParameters s p).concentrado = s.concentrado ∧
    (optimizeParameters s p).rejeito = s.rejeito ∧
    (optimizeParameters s p).results = s.results ∧
    (optimizeParameters s p).simulationHistory = s.simulationHistory :=
  ⟨rfl, rfl, rfl, rfl, rfl, rfl⟩

/-! ## The approximate-IRR search -/

lemma taxasTir_pairwise : taxasTir.Pairwise (· < ·) := by
  unfold taxasTir
  rw [List.pairwise_map]
  refine (List.pairwise_lt_range 991).imp ?_
  intro a b hab
  have hq : (a : ℚ) < b := by exact_mod_cast hab
  linarith

lemma find?_min_of_sorted {p : ℚ → Bool} :
    ∀ {l : List ℚ}, l.Pairwise (· < ·) → ∀ {a : ℚ}, l.find? p = some a →
      a ∈ l ∧ p a = true ∧ ∀ b ∈ l, p b = true → a ≤ b := by
  intro l
  induction l with
  | nil =>
    intro _ a h
    simp at h
  | cons x xs ih =>
    intro hp a h
    rw [List.find?_cons] at h
    cases hx : p x with
    | true =>
      simp only [hx] at h
      have hax : x = a := by simpa using h
      subst hax
      refine ⟨List.mem_cons_self x xs, hx, ?_⟩
      intro b hb _
      rcases List.mem_cons.1 hb with rfl | hb
      · exact le_rfl
      · exact le_of_lt (List.rel_of_pairwise_cons hp hb)
    | false =>
      simp only [hx] at h
      have hxs := ih (List.pairwise_cons.1 hp).2 h
      refine ⟨List.mem_cons_of_mem _ hxs.1, hxs.2.1, ?_⟩
      intro b hb hpb
      rcases List.mem_cons.1 hb with rfl | hb
      · rw [hx] at hpb
        exact absurd hpb (by simp)
      · exact hxs.2.2 b hb hpb

/-- C7 (amended): whenever `calculateEconomics` produces a result, its
reported IRR is either `0` (when no swept rate has test NPV `≤ 0`) or the
*least* swept rate whose test NPV is `≤ 0` **minus `0.1`** — not that rate
itself as the claim states. -/
theorem c7_tir_characterisation (results : Option BalanceResults) (d : EconomicData)
    (er : EconomicResults) (h : calculateEconomics results d = some er) :
    ∃ r, results = some r ∧
      ((er.tir = 0 ∧ ∀ taxa ∈ taxasTir,
          ¬ npvAt d.capex (fluxoCaixaAnualCalc r d) (anosDeVida d.vidaUtil) taxa ≤ 0) ∨
        (∃ taxa ∈ taxasTir,
          npvAt d.capex (fluxoCaixaAnualCalc r d) (anosDeVida d.vidaUtil) taxa ≤ 0 ∧
          (∀ taxa' ∈ taxasTir,
            npvAt d.capex (fluxoCaixaAnualCalc r d) (anosDeVida d.vidaUtil) taxa' ≤ 0 →
            taxa ≤ taxa') ∧
          er.tir = taxa - 1 / 10)) := by
  cases results with
  | none => exact absurd h (by simp [calculateEconomics])
  | some r =>
    refine ⟨r, rfl, ?_⟩
    simp only [calculateEconomics] at h
    by_cases hg : d.capex = 0 ∨ d.opexAnual = 0
    · rw [if_pos hg] at h
      exact absurd h (by simp)
    · rw [if_neg hg] at h
      have her : er.tir =
          tirSearch d.capex (fluxoCaixaAnualCalc r d) (anosDeVida d.vidaUtil) := by
        rw [← Option.some.inj h]
      unfold tirSearch at her
      cases hf : taxasTir.find? (fun taxa =>
          decide (npvAt d.capex (fluxoCaixaAnualCalc r d) (anosDeVida d.vidaUtil) taxa ≤ 0)) with
      | none =>
        rw [hf] at her
        left
        refine ⟨by simpa using her, ?_⟩
        intro taxa htaxa
        have := List.find?_eq_none.1 hf taxa htaxa
        simpa using this
      | some taxa =>
        rw [hf] at her
        right
        have hm := find?_min_of_sorted taxasTir_pairwise hf
        refine ⟨taxa, hm.1, by simpa using hm.2.1, ?_, by simpa using her⟩
        intro taxa' ht' hle
        exact hm.2.2 taxa' ht' (by simpa using hle)

lemma fluxo_dcfExample : fluxoCaixaAnualCalc dcfExampleBalance dcfExampleData = -1 := by
  norm_num [fluxoCaixaAnualCalc, receitaAnualCalc, custoOperacionalCalc,
    dcfExampleBalance, dcfExampleData]

lemma anos_dcfExample : anosDeVida dcfExampleData.vidaUtil = 1 := by
  norm_num [anosDeVida, dcfExampleData]

lemma npvAt_dcf_one : npvAt 1000 (-1) 1 1 ≤ 0 := by
  norm_num [npvAt, List.range_succ, List.range_zero]

lemma taxasTir_head :
    taxasTir = 1 :: (List.range 990).map (fun k : ℕ => 1 + ((k : ℚ) + 1) / 10) := by
  unfold taxasTir
  rw [show (991 : ℕ) = 990 + 1 from rfl, List.range_succ_eq_map, List.map_cons, List.map_map]
  simp [Function.comp_def, Nat.cast_succ]

lemma find_dcfExample :
    taxasTir.find? (fun taxa => decide (npvAt 1000 (-1) 1 taxa ≤ 0)) = some 1 := by
  rw [taxasTir_head, List.find?_cons]
  simp [decide_eq_true npvAt_dcf_one]

lemma tirSearch_dcfExample : tirSearch 1000 (-1) 1 = 9 / 10 := by
  unfold tirSearch
  rw [find_dcfExample]
  norm_num

lemma calculateEconomics_dcfExample :
    calculateEconomics (some dcfExampleBalance) dcfExampleData = some dcfExampleResults := by
  simp only [calculateEconomics]
  rw [if_neg (by norm_num [dcfExampleData])]
  rw [fluxo_dcfExample, anos_dcfExample,
    show dcfExampleData.capex = 1000 from rfl,
    show dcfExampleData.taxaDesconto = 0 from rfl,
    show dcfExampleData.vidaUtil = 1 from rfl,
    tirSearch_dcfExample]
  norm_num [npvAt, List.range_succ, List.range_zero, dcfExampleResults, custoOperacionalCalc,
    dcfExampleData, dcfExampleBalance]

/-- C7 (as frozen, refuted): on a concrete input whose NPV is already
non-positive at the first swept rate `1`, the code reports
`tir = 1 - 0.1 = 0.9`, not the first crossing rate `1` the claim names. -/
theorem c7_counterexample :
    taxasTir.find? (fun taxa => decide (npvAt dcfExampleData.capex
        (fluxoCaixaAnualCalc dcfExampleBalance dcfExampleData)
        (anosDeVida dcfExampleData.vidaUtil) taxa ≤ 0)) = some 1 ∧
    (calculateEconomics (some dcfExampleBalance) dcfExampleData).map EconomicResults.tir =
      some (9 / 10) ∧
    (9 / 10 : ℚ) ≠ 1 := by
  refine ⟨?_, ?_, by norm_num⟩
  · rw [fluxo_dcfExample, anos_dcfExample, show dcfExampleData.capex = 1000 from rfl]
    exact find_dcfExample
  · rw [calculateEconomics_dcfExample]
    rfl

/-- Witness for C7 at the concrete DCF example. -/
theorem c7_witness :
    ∃ r, (some dcfExampleBalance : Option BalanceResults) = some r ∧
      ((dcfExampleResults.tir = 0 ∧ ∀ taxa ∈ taxasTir,
          ¬ npvAt dcfExampleData.capex (fluxoCaixaAnualCalc r dcfExampleData)
            (anosDeVida dcfExampleData.vidaUtil) taxa ≤ 0) ∨
        (∃ taxa ∈ taxasTir,
          npvAt dcfExampleData.capex (fluxoCaixaAnualCalc r dcfExampleData)
            (anosDeVida dcfExampleData.vidaUtil) taxa ≤ 0 ∧
          (∀ taxa' ∈ taxasTir,
            npvAt dcfExampleData.capex (fluxoCaixaAnualCalc r dcfExampleData)
              (anosDeVida dcfExampleData.vidaUtil) taxa' ≤ 0 →
            taxa ≤ taxa') ∧
          dcfExampleResults.tir = taxa - 1 / 10)) :=
  c7_tir_characterisation (some dcfExampleBalance) dcfExampleData dcfExampleResults
    calculateEconomics_dcfExample

/-! ## The economic-analysis component -/

/-- C8 (the code lacks the required guard): with a non-zero concentrate
price but zero operating hours the annual revenue is `0`, yet the
economic-analysis `calculateEconomics` still returns a plain result with no
distinct zero-revenue condition; in JavaScript its `margemLucro` is the
silent `NaN` of `0/0` (here, `0` under the rational convention). -/
theorem c8_no_zero_revenue_guard :
    ∃ er, analysisCalculateEconomics (some zeroRevenueProps) zeroRevenueData = some er ∧
      er.receitaAnual = 0 ∧ er.margemLucro = 0 := by
  simp only [analysisCalculateEconomics]
  rw [if_neg (by norm_num [zeroRevenueData])]
  refine ⟨_, rfl, ?_, ?_⟩ <;>
    norm_num [zeroRevenueProps, zeroRevenueData]

end Minesim
